import Mathlib

/-!
Shallow embedding of the ctr-alt-code-club/makecode-core cloud-sync client:
the database API client (saveProject / getUserProjects / getProject /
updateProject / deleteProject), the Base64 codec adapter, and the
sync orchestrator (syncFromCloud / importCloudProject).

JavaScript runtime behaviour that the code depends on (truthiness,
typeof, property access throwing on null, JSON.stringify dropping
undefined-valued keys, string coercion) is modelled explicitly.
External collaborators (fetch, LZMA decompression, Base64 codec,
JSON.parse, the workspace store) are oracle parameters.
-/

namespace MakecodeCloud

/-- A JavaScript value as produced by JSON.parse: null, booleans,
numbers (modelled as integers), strings, arrays and objects. -/
inductive Json where
  | null
  | bool (b : Bool)
  | num (n : Int)
  | str (s : String)
  | arr (xs : List Json)
  | obj (fields : List (String × Json))
deriving Repr

/-- JS truthiness of a value: null, false, 0 and the empty string are
falsy; every array and object is truthy. -/
def truthyJ : Json → Bool
  | .null => false
  | .bool b => b
  | .num n => n != 0
  | .str s => s != ""
  | .arr _ => true
  | .obj _ => true

/-- JS truthiness of a possibly-undefined value (`none` = undefined). -/
def truthy : Option Json → Bool
  | none => false
  | some j => truthyJ j

/-- `typeof v === "string"` for a possibly-undefined value. -/
def isStringTy : Option Json → Bool
  | some (.str _) => true
  | _ => false

/-- `typeof v === "object"` (true for null, arrays and objects). -/
def isObjectTy : Option Json → Bool
  | some .null => true
  | some (.arr _) => true
  | some (.obj _) => true
  | _ => false

/-- Property lookup on a value that is known not to be null or
undefined: objects yield the field or undefined, every other value
yields undefined. -/
def lookupField : Json → String → Option Json
  | .obj fields, k => (fields.find? (fun p => p.1 == k)).map (·.2)
  | _, _ => none

/-- JS property access `v.k`: throws a TypeError when `v` is null,
otherwise behaves like `lookupField`. -/
def jsGet (v : Json) (k : String) : Except Unit (Option Json) :=
  match v with
  | .null => .error ()
  | v => .ok (lookupField v k)

/-- JS optional chaining `v?.k`: undefined when `v` is null or
undefined, otherwise plain property lookup. -/
def jsGetOpt (v : Option Json) (k : String) : Option Json :=
  match v with
  | none => none
  | some .null => none
  | some j => lookupField j k

/-- JS `a || b` on possibly-undefined values: `a` when truthy,
otherwise `b`. -/
def jsOr (a b : Option Json) : Option Json :=
  if truthy a then a else b

mutual
/-- JS string coercion `String(v)` of a JSON value. -/
def jsToStringCoerce : Json → String
  | .str s => s
  | .num n => toString n
  | .bool b => cond b "true" "false"
  | .null => "null"
  | .obj _ => "[object Object]"
  | .arr xs => arrToStringCoerce xs

/-- JS Array.prototype.toString: elements joined by commas, null
elements rendered as the empty string. -/
def arrToStringCoerce : List Json → String
  | [] => ""
  | [.null] => ""
  | [x] => jsToStringCoerce x
  | .null :: x :: xs => "," ++ arrToStringCoerce (x :: xs)
  | x :: y :: xs => jsToStringCoerce x ++ "," ++ arrToStringCoerce (y :: xs)
end

/-- JS `a || b` where the fallback `b` is never undefined: yields the
value of `a` when truthy, otherwise `b`. -/
def jsOrVal (a : Option Json) (b : Json) : Json :=
  if truthy a then a.getD b else b

/-- Outcome of a fetch call that received a response: the success flag
and the outcome of `response.json()` (which throws on a body that is
not valid JSON). -/
structure HttpResponse where
  ok : Bool
  bodyParse : Except String Json
deriving Repr

/-- Errors a db-client operation can throw: the fetch itself rejecting,
`response.json()` throwing, a TypeError from property access on null,
or the `new Error(...)` raised for an unsuccessful status. -/
inductive DbError where
  | networkError (m : String)
  | bodyParseError (m : String)
  | typeError
  | apiError (message : String)
deriving Repr, DecidableEq

/-- Shared response handling of the db client operations: a network
failure propagates; on a response, an unsuccessful status parses the
error body and throws `new Error(body.error || defaultMsg)`; a
successful status returns the parsed body. The enclosing try/catch in
each operation only logs and rethrows, so it is the identity on the
result. -/
def dbCall (fetchResult : Except String HttpResponse) (defaultMsg : String) :
    Except DbError Json :=
  match fetchResult with
  | .error m => .error (.networkError m)
  | .ok resp =>
    if resp.ok then
      match resp.bodyParse with
      | .error m => .error (.bodyParseError m)
      | .ok j => .ok j
    else
      match resp.bodyParse with
      | .error m => .error (.bodyParseError m)
      | .ok e =>
        match jsGet e "error" with
        | .error _ => .error .typeError
        | .ok v => .error (.apiError (jsToStringCoerce (jsOrVal v (.str defaultMsg))))

/-- POST /api/projects. -/
def saveProject (fetchResult : Except String HttpResponse) : Except DbError Json :=
  dbCall fetchResult "Failed to save project"

/-- GET /api/projects/user/:userId. -/
def getUserProjects (fetchResult : Except String HttpResponse) : Except DbError Json :=
  dbCall fetchResult "Failed to fetch projects"

/-- The record getProject builds from the response body: each field is
a plain JS property lookup and may be undefined. -/
structure DbProjectRecord where
  id : Option Json
  userId : Option Json
  projectName : Option Json
  projectData : Option Json
  createdAt : Option Json
  updatedAt : Option Json
deriving Repr

/-- Field extraction getProject performs on the parsed body
(snake_case response fields to camelCase record): property access on a
null body throws a TypeError. -/
def getProjectMap (j : Json) : Except DbError DbProjectRecord :=
  match j with
  | .null => .error .typeError
  | j => .ok
      { id := lookupField j "id"
        userId := lookupField j "user_id"
        projectName := lookupField j "project_name"
        projectData := lookupField j "project_data"
        createdAt := lookupField j "created_at"
        updatedAt := lookupField j "updated_at" }

/-- GET /api/projects/:id?userId=... -/
def getProject (fetchResult : Except String HttpResponse) : Except DbError DbProjectRecord :=
  (dbCall fetchResult "Failed to fetch project").bind getProjectMap

/-- PUT /api/projects/:id. -/
def updateProject (fetchResult : Except String HttpResponse) : Except DbError Json :=
  dbCall fetchResult "Failed to update project"

/-- DELETE /api/projects/:id?userId=... -/
def deleteProject (fetchResult : Except String HttpResponse) : Except DbError Json :=
  dbCall fetchResult "Failed to delete project"

/-- JSON.stringify of an object literal: keys whose value is undefined
are omitted from the serialized object. -/
def stringifyObjectFields (fields : List (String × Option Json)) : List (String × Json) :=
  fields.filterMap (fun p => p.2.map (fun v => (p.1, v)))

/-- The serialized PUT body of updateProject:
JSON.stringify of the literal with userId, projectName, projectData,
where the optional arguments may be undefined. -/
def updateRequestBody (userId : String) (projectName : Option String)
    (projectData : Option String) : List (String × Json) :=
  stringifyObjectFields
    [("userId", some (.str userId)),
     ("projectName", projectName.map .str),
     ("projectData", projectData.map .str)]

/-- GET /health: an unsuccessful status throws a fixed message without
reading the body. -/
def checkApiHealth (fetchResult : Except String HttpResponse) : Except DbError Json :=
  match fetchResult with
  | .error m => .error (.networkError m)
  | .ok resp =>
    if resp.ok then
      match resp.bodyParse with
      | .error m => .error (.bodyParseError m)
      | .ok j => .ok j
    else .error (.apiError "API health check failed")

/-- getCurrentUserId: the stored id when present and truthy, otherwise
the placeholder. -/
def getCurrentUserId (stored : Option String) : String :=
  match stored with
  | some s => if s != "" then s else "test-user"
  | none => "test-user"

/-- pxt.CONFIG_NAME, the reserved project-configuration file name. -/
def CONFIG_NAME : String := "pxt.json"

/-- pxt.BLOCKS_PROJECT_NAME, the default editor kind. -/
def BLOCKS_PROJECT_NAME : String := "blocksprj"

/-- The importCloudProject input. -/
structure CloudProjectData where
  projectName : String
  projectData : String
  createdAt : Option String
deriving Repr

/-- The pxt.workspace.InstallHeader literal importCloudProject builds:
targetVersion may be undefined; editor, meta and pubId always receive
a value through the || fallbacks. -/
structure InstallHeader where
  target : String
  targetVersion : Option Json
  editor : Json
  name : String
  meta : Json
  pubId : Json
  pubCurrent : Bool
deriving Repr

/-- Everything importCloudProject can throw, by origin. -/
inductive ImportError where
  | decodeError (m : String)
  | decompressError (m : String)
  | parseError (m : String)
  | typeError
  | invalidShape
  | sourceParseError (m : String)
  | invalidMissingConfig
  | configParseError (m : String)
  | installError (m : String)
deriving Repr, DecidableEq

/-- The external collaborators of importCloudProject: the Base64
decoder, the LZMA decompressor, JSON.parse and the workspace store
install call, plus pxt.appTarget.id. -/
structure ImportEnv where
  decode : String → Except String (List Nat)
  lzmaDecompress : List Nat → Except String String
  jsonParse : String → Except String Json
  targetId : String
  install : InstallHeader → Json → Except String Unit

/-- Steps 1 to 3 of importCloudProject: Base64 to bytes, LZMA
decompression to a JSON text, JSON.parse to the payload value. -/
def decodePayload (env : ImportEnv) (cd : CloudProjectData) : Except ImportError Json :=
  match env.decode cd.projectData with
  | .error m => .error (.decodeError m)
  | .ok bytes =>
    match env.lzmaDecompress bytes with
    | .error m => .error (.decompressError m)
    | .ok s =>
      match env.jsonParse s with
      | .error m => .error (.parseError m)
      | .ok pd => .ok pd

/-- The shape-B branch: projectData.text is truthy and of object type
(an array or a non-null object); otherwise the unknown-format error. -/
def resolveShapeB (pd : Json) : Except ImportError (Json × Option Json) :=
  match jsGet pd "text" with
  | .error _ => .error .typeError
  | .ok txt =>
    if truthy txt && isObjectTy txt then
      match jsGet pd "header" with
      | .error _ => .error .typeError
      | .ok hdr => .ok (txt.getD .null, hdr)
    else .error .invalidShape

/-- The format dispatch of importCloudProject: shape A when
projectData.source is truthy and a string (that is, a non-empty
string), in which case the file map is JSON.parse of that string and
the header is projectData.meta; otherwise shape B. -/
def resolveShape (jsonParse : String → Except String Json) (pd : Json) :
    Except ImportError (Json × Option Json) :=
  match jsGet pd "source" with
  | .error _ => .error .typeError
  | .ok src =>
    match src with
    | some (.str s) =>
      if s != "" then
        match jsonParse s with
        | .error m => .error (.sourceParseError m)
        | .ok text =>
          match jsGet pd "meta" with
          | .error _ => .error .typeError
          | .ok hdr => .ok (text, hdr)
      else resolveShapeB pd
    | _ => resolveShapeB pd

/-- Result of one import attempt: the returned or thrown outcome, the
installation requests submitted to the workspace store, and the local
header names afterwards (a successful install adds the new name). -/
structure ImportAttempt where
  result : Except ImportError Bool
  installs : List InstallHeader
  newHeaders : List String
deriving Repr

/-- Steps 5 of importCloudProject, reached only past the collision
check: parse the configuration file (through JS string coercion),
read its preferredEditor, build the InstallHeader literal and submit
the installation to the workspace store. -/
def importInstall (env : ImportEnv) (headers : List String) (cd : CloudProjectData)
    (text : Json) (header : Option Json) (cfgVal : Option Json) : ImportAttempt :=
  match env.jsonParse (jsToStringCoerce (cfgVal.getD .null)) with
  | .error m => ⟨.error (.configParseError m), [], headers⟩
  | .ok config =>
    match jsGet config "preferredEditor" with
    | .error _ => ⟨.error .typeError, [], headers⟩
    | .ok preferredEditor =>
      let ih : InstallHeader :=
        { target := env.targetId
          targetVersion :=
            jsOr (jsGetOpt (jsGetOpt header "targetVersions") "target")
              (jsGetOpt header "targetVersion")
          editor :=
            jsOrVal (jsOr preferredEditor (jsGetOpt header "editor"))
              (.str BLOCKS_PROJECT_NAME)
          name := cd.projectName
          meta := jsOrVal (jsGetOpt header "meta") (.obj [])
          pubId := jsOrVal (jsGetOpt header "pubId") (.str "")
          pubCurrent := false }
      match env.install ih text with
      | .error m => ⟨.error (.installError m), [ih], headers⟩
      | .ok _ => ⟨.ok true, [ih], headers ++ [cd.projectName]⟩

/-- Steps of importCloudProject after format dispatch: require a
truthy entry under CONFIG_NAME, skip when a local header with the same
name exists, otherwise install. -/
def importAfterShape (env : ImportEnv) (headers : List String) (cd : CloudProjectData)
    (text : Json) (header : Option Json) : ImportAttempt :=
  match jsGet text CONFIG_NAME with
  | .error _ => ⟨.error .typeError, [], headers⟩
  | .ok cfgVal =>
    if !truthy cfgVal then ⟨.error .invalidMissingConfig, [], headers⟩
    else if headers.contains cd.projectName then ⟨.ok false, [], headers⟩
    else importInstall env headers cd text header cfgVal

/-- The body of importCloudProject (the try block): decode the
payload, resolve the shape, then run the post-shape steps. -/
def importPipeline (env : ImportEnv) (headers : List String) (cd : CloudProjectData) :
    ImportAttempt :=
  match decodePayload env cd with
  | .error e => ⟨.error e, [], headers⟩
  | .ok pd =>
    match resolveShape env.jsonParse pd with
    | .error e => ⟨.error e, [], headers⟩
    | .ok (text, header) => importAfterShape env headers cd text header

/-- A notification posted through core.infoNotification or
core.errorNotification. -/
structure Notification where
  isError : Bool
  message : String
deriving Repr, DecidableEq

/-- The message of the JS error carried by each ImportError. -/
def errMessage : ImportError → String
  | .decodeError m => m
  | .decompressError m => m
  | .parseError m => m
  | .typeError => "TypeError: cannot read properties of null"
  | .invalidShape => "Invalid project structure: expected source or text property"
  | .sourceParseError m => m
  | .invalidMissingConfig => "Invalid project structure: missing " ++ CONFIG_NAME ++ " file"
  | .configParseError m => m
  | .installError m => m

/-- Observable outcome of importCloudProject: the returned or rethrown
result, submitted installations, header names after the call, and the
notifications it posted. -/
structure ImportOutput where
  result : Except ImportError Bool
  installs : List InstallHeader
  newHeaders : List String
  notifs : List Notification
deriving Repr

/-- importCloudProject: the try body, with the catch clause posting a
failure notification and rethrowing the same error. -/
def importCloudProject (env : ImportEnv) (headers : List String) (cd : CloudProjectData) :
    ImportOutput :=
  let a := importPipeline env headers cd
  match a.result with
  | .ok b => ⟨.ok b, a.installs, a.newHeaders, []⟩
  | .error e =>
      ⟨.error e, a.installs, a.newHeaders,
        [⟨true, "Failed to import " ++ cd.projectName ++ ": " ++ errMessage e⟩]⟩

/-- A cloud project list entry as returned by getUserProjects. -/
structure DbProjectListItem where
  id : Int
  project_name : String
  created_at : String
  updated_at : String
deriving Repr

/-- The fields of a fetched full project record that syncFromCloud
reads when building the importer input. -/
structure FetchedProject where
  projectName : String
  projectData : String
  createdAt : Option String
deriving Repr

/-- The collaborators of syncFromCloud: the stored user id, the cloud
list and fetch calls, the importer environment and the initial local
workspace header names. -/
structure SyncEnv where
  storedUserId : Option String
  listProjects : String → Except String (List DbProjectListItem)
  fetchProject : Int → String → Except String FetchedProject
  importEnv : ImportEnv
  initialHeaders : List String

/-- The three per-item terminal outcomes of the sync loop, with fetch
and import failures kept apart. -/
inductive ItemOutcome where
  | fetchFailed
  | importFailed
  | imported
  | skipped
deriving Repr, DecidableEq

/-- Running state of the sync loop: the two counters of the code plus
the observable trace (headers, importer notifications, call counts,
per-item outcomes). -/
structure SyncLoopState where
  importedCount : Nat
  skippedCount : Nat
  headers : List String
  importNotifs : List Notification
  fetchCalls : Nat
  importCalls : Nat
  outcomes : List ItemOutcome
deriving Repr

/-- One iteration of the sync loop: fetch the full record; on failure
only log and continue; otherwise run importCloudProject and classify
its outcome, swallowing a thrown import error. -/
def syncStep (env : SyncEnv) (userId : String) (st : SyncLoopState)
    (item : DbProjectListItem) : SyncLoopState :=
  match env.fetchProject item.id userId with
  | .error _ =>
      { st with fetchCalls := st.fetchCalls + 1, outcomes := st.outcomes ++ [.fetchFailed] }
  | .ok fp =>
    let cd : CloudProjectData := ⟨fp.projectName, fp.projectData, fp.createdAt⟩
    let out := importCloudProject env.importEnv st.headers cd
    let st' : SyncLoopState :=
      { st with
          fetchCalls := st.fetchCalls + 1
          importCalls := st.importCalls + 1
          headers := out.newHeaders
          importNotifs := st.importNotifs ++ out.notifs }
    match out.result with
    | .ok true =>
        { st' with importedCount := st'.importedCount + 1, outcomes := st'.outcomes ++ [.imported] }
    | .ok false =>
        { st' with skippedCount := st'.skippedCount + 1, outcomes := st'.outcomes ++ [.skipped] }
    | .error _ => { st' with outcomes := st'.outcomes ++ [.importFailed] }

/-- The initial loop state over the given local headers. -/
def initSyncState (headers : List String) : SyncLoopState :=
  ⟨0, 0, headers, [], 0, 0, []⟩

/-- Observable outcome of a syncFromCloud run: the (never error)
result of the returned promise, the notifications the orchestrator
itself posts, the notifications posted by the importer during the
loop, both counters, the call counts, the final headers and the trace
of per-item outcomes. -/
structure SyncOutput where
  result : Except String Unit
  syncNotifs : List Notification
  importNotifs : List Notification
  importedCount : Nat
  skippedCount : Nat
  fetchCalls : Nat
  importCalls : Nat
  finalHeaders : List String
  outcomes : List ItemOutcome
deriving Repr

/-- The aggregate notification syncFromCloud posts after the loop:
the synced message when anything was imported, else the
already-exist message when anything was skipped, else nothing. -/
def aggregateNotifs (imported skipped : Nat) : List Notification :=
  if imported > 0 then
    [⟨false, "Synced " ++ toString imported ++ " project(s) from cloud"⟩]
  else if skipped > 0 then
    [⟨false, "All " ++ toString skipped ++ " cloud project(s) already exist locally"⟩]
  else []

/-- syncFromCloud: look up the user, list cloud projects (a failure of
the list call reaches the top-level catch, which posts an error
notification and returns normally), stop with an info notification on
an empty list, otherwise run the loop and post the aggregate info
notification chosen by the two counters - none when both are zero. -/
def syncFromCloud (env : SyncEnv) : SyncOutput :=
  let userId := getCurrentUserId env.storedUserId
  match env.listProjects userId with
  | .error m =>
      { result := .ok ()
        syncNotifs := [⟨true, "Cloud sync failed: " ++ m⟩]
        importNotifs := []
        importedCount := 0, skippedCount := 0
        fetchCalls := 0, importCalls := 0
        finalHeaders := env.initialHeaders, outcomes := [] }
  | .ok [] =>
      { result := .ok ()
        syncNotifs := [⟨false, "No cloud projects to sync"⟩]
        importNotifs := []
        importedCount := 0, skippedCount := 0
        fetchCalls := 0, importCalls := 0
        finalHeaders := env.initialHeaders, outcomes := [] }
  | .ok (item :: rest) =>
      let st := (item :: rest).foldl (syncStep env userId) (initSyncState env.initialHeaders)
      { result := .ok ()
        syncNotifs := aggregateNotifs st.importedCount st.skippedCount
        importNotifs := st.importNotifs
        importedCount := st.importedCount, skippedCount := st.skippedCount
        fetchCalls := st.fetchCalls, importCalls := st.importCalls
        finalHeaders := st.headers, outcomes := st.outcomes }

/-- uint8ArrayToBase64 from the cloud save button module: the external
Base64 encoder applied to the external byte-to-string conversion. -/
def uint8ArrayToBase64 {σ β : Type} (encodeBase64 : σ → β)
    (uint8ArrayToString : List Nat → σ) (a : List Nat) : β :=
  encodeBase64 (uint8ArrayToString a)

/-- base64ToUint8Array from the cloud save button module: the external
Base64 decoder followed by the external string-to-byte conversion. -/
def base64ToUint8Array {σ β : Type} (decodeBase64 : β → σ)
    (stringToUint8Array : σ → List Nat) (b : β) : List Nat :=
  stringToUint8Array (decodeBase64 b)

/-- The checks of importCloudProject that precede the collision check:
the payload decodes, matches one of the two shapes, and its file map
has a truthy entry under CONFIG_NAME. -/
def wellFormedPayload (env : ImportEnv) (cd : CloudProjectData) : Bool :=
  match decodePayload env cd with
  | .error _ => false
  | .ok pd =>
    match resolveShape env.jsonParse pd with
    | .error _ => false
    | .ok (text, _) =>
      match jsGet text CONFIG_NAME with
      | .error _ => false
      | .ok cfgVal => truthy cfgVal

section Fixtures

/-- An importer environment whose external codec steps succeed and
whose JSON.parse always yields the given payload. -/
def mkImportEnv (payload : Json) : ImportEnv :=
  { decode := fun _ => .ok []
    lzmaDecompress := fun _ => .ok ""
    jsonParse := fun _ => .ok payload
    targetId := "test-target"
    install := fun _ _ => .ok () }

/-- A shape-B payload whose file map has a truthy configuration
entry. -/
def textPayload : Json :=
  .obj [("text", .obj [(CONFIG_NAME, .str "cfg")]), ("header", .obj [])]

/-- A payload carrying a source field that holds the empty string and
no text field. -/
def emptySourcePayload : Json := .obj [("source", .str "")]

/-- A sync environment whose cloud list is empty. -/
def envEmptyList : SyncEnv :=
  { storedUserId := none
    listProjects := fun _ => .ok []
    fetchProject := fun _ _ => .error "unused"
    importEnv := mkImportEnv textPayload
    initialHeaders := [] }

/-- A sync environment whose list call itself fails. -/
def envListFail : SyncEnv :=
  { envEmptyList with listProjects := fun _ => .error "down" }

/-- A sync environment with a single cloud project whose fetch
fails. -/
def envFetchFail : SyncEnv :=
  { envEmptyList with
      listProjects := fun _ => .ok [⟨1, "P", "t1", "t2"⟩]
      fetchProject := fun _ _ => .error "boom" }

/-- A sync environment with a single cloud project whose fetch
succeeds and whose import fails at the Base64 decode step. -/
def envImportFail : SyncEnv :=
  { envEmptyList with
      listProjects := fun _ => .ok [⟨1, "P", "t1", "t2"⟩]
      fetchProject := fun _ _ => .ok ⟨"P", "b64", none⟩
      importEnv := { mkImportEnv textPayload with decode := fun _ => .error "bad base64" } }

/-- A sync environment with three cloud projects: one imports, one is
skipped by local precedence, one fails at fetch. -/
def envMixed : SyncEnv :=
  { storedUserId := none
    listProjects := fun _ => .ok [⟨1, "A", "t", "t"⟩, ⟨2, "Q", "t", "t"⟩, ⟨3, "C", "t", "t"⟩]
    fetchProject := fun i _ =>
      if i == 1 then .ok ⟨"A", "b64", none⟩
      else if i == 2 then .ok ⟨"Q", "b64", none⟩
      else .error "boom"
    importEnv := mkImportEnv textPayload
    initialHeaders := ["Q"] }

end Fixtures

/-- When the pre-collision checks pass and a local header already has
the incoming name, the import body returns false without submitting an
installation and without touching the workspace. -/
theorem importPipeline_collision_skips (env : ImportEnv) (headers : List String)
    (cd : CloudProjectData) (hwf : wellFormedPayload env cd = true)
    (hmem : headers.contains cd.projectName = true) :
    importPipeline env headers cd = ⟨.ok false, [], headers⟩ := by
  unfold wellFormedPayload at hwf
  unfold importPipeline
  cases hd : decodePayload env cd with
  | error e => simp [hd] at hwf
  | ok pd =>
    simp only [hd] at hwf ⊢
    cases hs : resolveShape env.jsonParse pd with
    | error e => simp [hs] at hwf
    | ok th =>
      obtain ⟨text, hdr⟩ := th
      simp only [hs] at hwf ⊢
      unfold importAfterShape
      cases hc : jsGet text CONFIG_NAME with
      | error e => simp [hc] at hwf
      | ok cfg =>
        simp only [hc] at hwf ⊢
        have hmem' : cd.projectName ∈ headers := by simpa using hmem
        simp [hwf, hmem']

/-- C1: when the decoded payload is well-formed and a local project of
the same name exists, importCloudProject returns false and submits no
installation request; running it a second time over the unchanged
workspace again returns false and submits no installation. -/
theorem importCloudProject_local_precedence (env : ImportEnv) (headers : List String)
    (cd : CloudProjectData) (hwf : wellFormedPayload env cd = true)
    (hmem : headers.contains cd.projectName = true) :
    (importCloudProject env headers cd).result = .ok false ∧
    (importCloudProject env headers cd).installs = [] ∧
    (importCloudProject env headers cd).newHeaders = headers ∧
    (importCloudProject env (importCloudProject env headers cd).newHeaders cd).result = .ok false ∧
    (importCloudProject env (importCloudProject env headers cd).newHeaders cd).installs = [] := by
  have h1 := importPipeline_collision_skips env headers cd hwf hmem
  simp [importCloudProject, h1]

/-- C1 witness: a concrete well-formed payload colliding with the
local project name P is skipped twice with no installation. -/
theorem importCloudProject_local_precedence_witness :
    (importCloudProject (mkImportEnv textPayload) ["P"] ⟨"P", "b64", none⟩).result = .ok false ∧
    (importCloudProject (mkImportEnv textPayload) ["P"] ⟨"P", "b64", none⟩).installs = [] ∧
    (importCloudProject (mkImportEnv textPayload) ["P"] ⟨"P", "b64", none⟩).newHeaders = ["P"] ∧
    (importCloudProject (mkImportEnv textPayload)
      (importCloudProject (mkImportEnv textPayload) ["P"] ⟨"P", "b64", none⟩).newHeaders
      ⟨"P", "b64", none⟩).result = .ok false ∧
    (importCloudProject (mkImportEnv textPayload)
      (importCloudProject (mkImportEnv textPayload) ["P"] ⟨"P", "b64", none⟩).newHeaders
      ⟨"P", "b64", none⟩).installs = [] :=
  importCloudProject_local_precedence (mkImportEnv textPayload) ["P"] ⟨"P", "b64", none⟩
    rfl rfl

/-- C6: when the optional projectName or projectData argument of
updateProject is omitted, the serialized PUT body contains no key for
it at all. -/
theorem updateRequestBody_omits_absent_fields :
    (∀ (u : String) (pd : Option String),
        "projectName" ∉ (updateRequestBody u none pd).map Prod.fst) ∧
    (∀ (u : String) (pn : Option String),
        "projectData" ∉ (updateRequestBody u pn none).map Prod.fst) := by
  constructor
  · intro u pd
    cases pd <;> simp [updateRequestBody, stringifyObjectFields]
  · intro u pn
    cases pn <;> simp [updateRequestBody, stringifyObjectFields]

/-- C9: assuming the external Base64 codec and the byte-string
conversions round-trip, base64ToUint8Array inverts
uint8ArrayToBase64. -/
theorem base64_uint8Array_roundtrip {σ β : Type} (encodeBase64 : σ → β)
    (decodeBase64 : β → σ) (uint8ArrayToString : List Nat → σ)
    (stringToUint8Array : σ → List Nat)
    (hdec : ∀ s, decodeBase64 (encodeBase64 s) = s)
    (hstr : ∀ a, stringToUint8Array (uint8ArrayToString a) = a) :
    ∀ a : List Nat,
      base64ToUint8Array decodeBase64 stringToUint8Array
        (uint8ArrayToBase64 encodeBase64 uint8ArrayToString a) = a := by
  intro a
  simp [base64ToUint8Array, uint8ArrayToBase64, hdec, hstr]

/-- C9 witness: the round trip at identity conversions on a concrete
byte array. -/
theorem base64_uint8Array_roundtrip_witness :
    base64ToUint8Array (id : List Nat → List Nat) (id : List Nat → List Nat)
      (uint8ArrayToBase64 (id : List Nat → List Nat) (id : List Nat → List Nat)
        [0, 255, 66]) = [0, 255, 66] :=
  base64_uint8Array_roundtrip id id id id (fun _ => rfl) (fun _ => rfl) [0, 255, 66]

/-- C7: an empty cloud list yields exactly the single nothing-to-sync
info notification, an immediate normal return, and no fetch or import
calls. -/
theorem syncFromCloud_empty_list (env : SyncEnv)
    (h : env.listProjects (getCurrentUserId env.storedUserId) = .ok []) :
    (syncFromCloud env).syncNotifs = [⟨false, "No cloud projects to sync"⟩] ∧
    (syncFromCloud env).result = .ok () ∧
    (syncFromCloud env).fetchCalls = 0 ∧
    (syncFromCloud env).importCalls = 0 ∧
    (syncFromCloud env).importedCount = 0 ∧
    (syncFromCloud env).skippedCount = 0 := by
  simp [syncFromCloud, h]

/-- C7 witness: the empty-list environment. -/
theorem syncFromCloud_empty_list_witness :
    (syncFromCloud envEmptyList).syncNotifs = [⟨false, "No cloud projects to sync"⟩] ∧
    (syncFromCloud envEmptyList).result = .ok () ∧
    (syncFromCloud envEmptyList).fetchCalls = 0 ∧
    (syncFromCloud envEmptyList).importCalls = 0 ∧
    (syncFromCloud envEmptyList).importedCount = 0 ∧
    (syncFromCloud envEmptyList).skippedCount = 0 :=
  syncFromCloud_empty_list envEmptyList rfl

/-- C10: syncFromCloud always returns normally, and a failure of the
list call is converted into the single error notification. -/
theorem syncFromCloud_never_throws (env : SyncEnv) :
    (syncFromCloud env).result = .ok () ∧
    (∀ m, env.listProjects (getCurrentUserId env.storedUserId) = .error m →
      (syncFromCloud env).syncNotifs = [⟨true, "Cloud sync failed: " ++ m⟩]) := by
  constructor
  · unfold syncFromCloud
    rcases h : env.listProjects (getCurrentUserId env.storedUserId) with m | items
    · simp [h]
    · cases items <;> simp [h]
  · intro m h
    simp [syncFromCloud, h]

/-- C10 witness: a failing list call still returns normally with the
error notification. -/
theorem syncFromCloud_never_throws_witness :
    (syncFromCloud envListFail).result = .ok () ∧
    (syncFromCloud envListFail).syncNotifs = [⟨true, "Cloud sync failed: down"⟩] :=
  ⟨(syncFromCloud_never_throws envListFail).1,
   (syncFromCloud_never_throws envListFail).2 "down" rfl⟩

/-- C8: whenever the import body throws - Base64 decoding,
decompression, JSON parsing, format validation, configuration parsing
or the installation request failing - importCloudProject posts the
failure notification and rethrows that same error; it never converts
the error into a false return. -/
theorem importCloudProject_propagates (env : ImportEnv) (headers : List String)
    (cd : CloudProjectData) (e : ImportError)
    (h : (importPipeline env headers cd).result = .error e) :
    (importCloudProject env headers cd).result = .error e ∧
    (importCloudProject env headers cd).notifs =
      [⟨true, "Failed to import " ++ cd.projectName ++ ": " ++ errMessage e⟩] := by
  simp [importCloudProject, h]

/-- C8 witness: a Base64 decode failure is rethrown with its
notification. -/
theorem importCloudProject_propagates_witness :
    (importCloudProject { mkImportEnv textPayload with decode := fun _ => .error "bad base64" }
      [] ⟨"P", "b64", none⟩).result = .error (.decodeError "bad base64") ∧
    (importCloudProject { mkImportEnv textPayload with decode := fun _ => .error "bad base64" }
      [] ⟨"P", "b64", none⟩).notifs =
      [⟨true, "Failed to import P: bad base64"⟩] :=
  importCloudProject_propagates
    { mkImportEnv textPayload with decode := fun _ => .error "bad base64" }
    [] ⟨"P", "b64", none⟩ (.decodeError "bad base64") rfl

/-- importCloudProject posts exactly one notification when it throws
and none otherwise. -/
theorem importCloudProject_notifs_length (env : ImportEnv) (headers : List String)
    (cd : CloudProjectData) :
    (importCloudProject env headers cd).notifs.length =
      (match (importCloudProject env headers cd).result with
       | .ok _ => 0
       | .error _ => 1) := by
  unfold importCloudProject
  cases hr : (importPipeline env headers cd).result <;> simp [hr]

/-- The loop-state invariant tying the two counters and the importer
notifications to the per-item outcome trace. -/
def countersMatch (st : SyncLoopState) : Prop :=
  st.importedCount = st.outcomes.count .imported ∧
  st.skippedCount = st.outcomes.count .skipped ∧
  st.importNotifs.length = st.outcomes.count .importFailed

/-- One sync iteration preserves the counter invariant. -/
theorem syncStep_countersMatch (env : SyncEnv) (userId : String) (st : SyncLoopState)
    (item : DbProjectListItem) (h : countersMatch st) :
    countersMatch (syncStep env userId st item) := by
  obtain ⟨h1, h2, h3⟩ := h
  unfold countersMatch syncStep
  cases hf : env.fetchProject item.id userId with
  | error m => simp [h1, h2, h3]
  | ok fp =>
    have hn := importCloudProject_notifs_length env.importEnv st.headers
      ⟨fp.projectName, fp.projectData, fp.createdAt⟩
    cases hr : (importCloudProject env.importEnv st.headers
        ⟨fp.projectName, fp.projectData, fp.createdAt⟩).result with
    | ok b =>
      rw [hr] at hn
      cases b <;> simp [hr, h1, h2, h3, hn]
    | error e =>
      rw [hr] at hn
      simp [hr, h1, h2, h3, hn]

/-- One sync iteration appends exactly one outcome. -/
theorem syncStep_outcomes_length (env : SyncEnv) (userId : String) (st : SyncLoopState)
    (item : DbProjectListItem) :
    (syncStep env userId st item).outcomes.length = st.outcomes.length + 1 := by
  unfold syncStep
  cases hf : env.fetchProject item.id userId with
  | error m => simp
  | ok fp =>
    cases hr : (importCloudProject env.importEnv st.headers
        ⟨fp.projectName, fp.projectData, fp.createdAt⟩).result with
    | ok b => cases b <;> simp [hr]
    | error e => simp [hr]

/-- The sync loop preserves the counter invariant. -/
theorem syncLoop_countersMatch (env : SyncEnv) (userId : String)
    (items : List DbProjectListItem) (st : SyncLoopState) (h : countersMatch st) :
    countersMatch (items.foldl (syncStep env userId) st) := by
  induction items generalizing st with
  | nil => exact h
  | cons item rest ih => exact ih _ (syncStep_countersMatch env userId st item h)

/-- The sync loop visits every entry: one outcome per list entry. -/
theorem syncLoop_outcomes_length (env : SyncEnv) (userId : String)
    (items : List DbProjectListItem) (st : SyncLoopState) :
    (items.foldl (syncStep env userId) st).outcomes.length =
      st.outcomes.length + items.length := by
  induction items generalizing st with
  | nil => simp
  | cons item rest ih =>
    rw [List.foldl_cons, ih, syncStep_outcomes_length]
    simp [List.length_cons]
    omega

/-- C2 (amended): a per-entry fetch or import failure never aborts the
run; every list entry receives exactly one of the four outcomes; the
imported and skipped counters count exactly the entries whose fetch
and import both succeeded, a failed entry counting in neither; a fetch
failure posts no notification, while each import failure is surfaced
by exactly one per-project error notification from the importer. -/
theorem syncFromCloud_per_item_failures (env : SyncEnv) :
    (syncFromCloud env).result = .ok () ∧
    (∀ items, env.listProjects (getCurrentUserId env.storedUserId) = .ok items →
      (syncFromCloud env).outcomes.length = items.length) ∧
    (syncFromCloud env).importedCount = (syncFromCloud env).outcomes.count .imported ∧
    (syncFromCloud env).skippedCount = (syncFromCloud env).outcomes.count .skipped ∧
    (syncFromCloud env).importNotifs.length =
      (syncFromCloud env).outcomes.count .importFailed := by
  have hres := (syncFromCloud_never_throws env).1
  refine ⟨hres, ?_, ?_⟩
  · intro items h
    unfold syncFromCloud
    rcases items with _ | ⟨item, rest⟩
    · simp [h]
    · simp only [h]
      have := syncLoop_outcomes_length env (getCurrentUserId env.storedUserId)
        (item :: rest) (initSyncState env.initialHeaders)
      simpa [initSyncState] using this
  · unfold syncFromCloud
    rcases h : env.listProjects (getCurrentUserId env.storedUserId) with m | items
    · simp [h]
    · rcases items with _ | ⟨item, rest⟩
      · simp [h]
      · simp only [h]
        have hcm := syncLoop_countersMatch env (getCurrentUserId env.storedUserId)
          (item :: rest) (initSyncState env.initialHeaders) (by simp [countersMatch, initSyncState])
        obtain ⟨c1, c2, c3⟩ := hcm
        exact ⟨c1, c2, c3⟩

/-- C2 witness: three cloud projects - one imports, one is skipped,
one fails at fetch - give a completed run with counts one and one over
a three-entry outcome trace and no importer notification. -/
theorem syncFromCloud_per_item_failures_witness :
    (syncFromCloud envMixed).result = .ok () ∧
    (syncFromCloud envMixed).outcomes.length = 3 ∧
    (syncFromCloud envMixed).importedCount = (syncFromCloud envMixed).outcomes.count .imported ∧
    (syncFromCloud envMixed).skippedCount = (syncFromCloud envMixed).outcomes.count .skipped ∧
    (syncFromCloud envMixed).importNotifs.length =
      (syncFromCloud envMixed).outcomes.count .importFailed :=
  ⟨(syncFromCloud_per_item_failures envMixed).1,
   (syncFromCloud_per_item_failures envMixed).2.1
     [⟨1, "A", "t", "t"⟩, ⟨2, "Q", "t", "t"⟩, ⟨3, "C", "t", "t"⟩] rfl,
   (syncFromCloud_per_item_failures envMixed).2.2.1,
   (syncFromCloud_per_item_failures envMixed).2.2.2.1,
   (syncFromCloud_per_item_failures envMixed).2.2.2.2⟩

/-- C2 counterexample: with a single cloud project whose import
throws, the completed run surfaces the failure individually through
the importer error notification, so the failure is not only logged. -/
theorem syncFromCloud_import_failure_surfaced :
    (syncFromCloud envImportFail).result = .ok () ∧
    (syncFromCloud envImportFail).importedCount = 0 ∧
    (syncFromCloud envImportFail).skippedCount = 0 ∧
    (syncFromCloud envImportFail).importNotifs =
      [⟨true, "Failed to import P: bad base64"⟩] :=
  ⟨rfl, rfl, rfl, rfl⟩

/-- C5 counterexample: a completed run in which the only listed
project fails at fetch posts no notification at all, neither
aggregate nor per-project. -/
theorem syncFromCloud_all_failed_silent :
    (syncFromCloud envFetchFail).result = .ok () ∧
    (syncFromCloud envFetchFail).syncNotifs = [] ∧
    (syncFromCloud envFetchFail).importNotifs = [] ∧
    (syncFromCloud envFetchFail).importedCount = 0 ∧
    (syncFromCloud envFetchFail).skippedCount = 0 :=
  ⟨rfl, rfl, rfl, rfl, rfl⟩

/-- C5 (amended): a syncFromCloud run posts at most one aggregate
notification, and exactly one precisely when the list call failed, the
cloud list was empty, or at least one project was imported or skipped;
a run in which every listed project fails per-item posts none. -/
theorem syncFromCloud_aggregate_notification (env : SyncEnv) :
    (syncFromCloud env).syncNotifs.length ≤ 1 ∧
    ((syncFromCloud env).syncNotifs.length = 1 ↔
      ((∃ m, env.listProjects (getCurrentUserId env.storedUserId) = .error m) ∨
       env.listProjects (getCurrentUserId env.storedUserId) = .ok [] ∨
       0 < (syncFromCloud env).importedCount ∨
       0 < (syncFromCloud env).skippedCount)) := by
  have hag : ∀ i s : Nat, (aggregateNotifs i s).length ≤ 1 ∧
      ((aggregateNotifs i s).length = 1 ↔ 0 < i ∨ 0 < s) := by
    intro i s
    unfold aggregateNotifs
    by_cases hi : 0 < i <;> by_cases hs : 0 < s <;> simp [hi, hs]
  rcases h : env.listProjects (getCurrentUserId env.storedUserId) with m | items
  · constructor
    · simp [syncFromCloud, h]
    · simp [syncFromCloud, h]
  · rcases items with _ | ⟨item, rest⟩
    · constructor
      · simp [syncFromCloud, h]
      · simp [syncFromCloud, h]
    · have e1 : (syncFromCloud env).syncNotifs =
          aggregateNotifs (syncFromCloud env).importedCount (syncFromCloud env).skippedCount := by
        unfold syncFromCloud
        simp only [h]
      rw [e1]
      refine ⟨(hag _ _).1, ?_⟩
      rw [(hag _ _).2]
      simp [h]

/-- C5 witness: the mixed run imported a project, so it posts exactly
one aggregate notification. -/
theorem syncFromCloud_aggregate_notification_witness :
    (syncFromCloud envMixed).syncNotifs.length = 1 :=
  (syncFromCloud_aggregate_notification envMixed).2.mpr
    (Or.inr (Or.inr (Or.inl (by decide))))

/-- resolveShapeB yields the unknown-format error exactly when the
text field read succeeds but the value is not a truthy object. -/
theorem resolveShapeB_invalidShape_iff (pd : Json) :
    resolveShapeB pd = .error .invalidShape ↔
      ∃ txt, jsGet pd "text" = .ok txt ∧ (truthy txt && isObjectTy txt) = false := by
  unfold resolveShapeB
  cases hg : jsGet pd "text" with
  | error e => simp
  | ok txt =>
    by_cases hc : (truthy txt && isObjectTy txt) = true
    · rw [Bool.and_eq_true] at hc
      cases hh : jsGet pd "header" with
      | error e => simp [hc.1, hc.2, hh]
      | ok hdr => simp [hc.1, hc.2, hh]
    · have hc' := eq_false_of_ne_true hc
      simp [hc']
      intro ht
      simpa [ht] using hc'

/-- resolveShape yields the unknown-format error exactly when the
source field is not a truthy string and the text field is not a truthy
object. -/
theorem resolveShape_invalidShape_iff (p : String → Except String Json) (pd : Json) :
    resolveShape p pd = .error .invalidShape ↔
      ∃ src txt, jsGet pd "source" = .ok src ∧ (truthy src && isStringTy src) = false ∧
        jsGet pd "text" = .ok txt ∧ (truthy txt && isObjectTy txt) = false := by
  unfold resolveShape
  cases hg : jsGet pd "source" with
  | error e => simp
  | ok src =>
    rcases src with _ | j
    · show resolveShapeB pd = Except.error ImportError.invalidShape ↔ _
      rw [resolveShapeB_invalidShape_iff]
      simp [truthy, isStringTy]
    · cases j with
      | str s =>
        by_cases hs : s = ""
        · subst hs
          show resolveShapeB pd = Except.error ImportError.invalidShape ↔ _
          rw [resolveShapeB_invalidShape_iff]
          simp [truthy, truthyJ, isStringTy]
        · have hs' : (s != "") = true := by simp [hs]
          simp only [hs', if_true]
          cases hp : p s with
          | error m => simp [hp, truthy, truthyJ, isStringTy, hs]
          | ok text =>
            cases hh : jsGet pd "meta" with
            | error e => simp [hh, hp, truthy, truthyJ, isStringTy, hs]
            | ok hdr => simp [hh, hp, truthy, truthyJ, isStringTy, hs]
      | null =>
        show resolveShapeB pd = Except.error ImportError.invalidShape ↔ _
        rw [resolveShapeB_invalidShape_iff]
        simp [truthy, truthyJ, isStringTy]
      | bool b =>
        show resolveShapeB pd = Except.error ImportError.invalidShape ↔ _
        rw [resolveShapeB_invalidShape_iff]
        simp [isStringTy]
      | num n =>
        show resolveShapeB pd = Except.error ImportError.invalidShape ↔ _
        rw [resolveShapeB_invalidShape_iff]
        simp [isStringTy]
      | arr xs =>
        show resolveShapeB pd = Except.error ImportError.invalidShape ↔ _
        rw [resolveShapeB_invalidShape_iff]
        simp [isStringTy]
      | obj fs =>
        show resolveShapeB pd = Except.error ImportError.invalidShape ↔ _
        rw [resolveShapeB_invalidShape_iff]
        simp [isStringTy]

/-- A resolveShape failure is a TypeError, the unknown-format error,
or a parse failure of the source string - never the missing-config
error. -/
theorem resolveShape_error_classify (p : String → Except String Json) (pd : Json)
    (e : ImportError) (h : resolveShape p pd = .error e) :
    e = .typeError ∨ e = .invalidShape ∨ ∃ m, e = .sourceParseError m := by
  unfold resolveShape at h
  cases hg : jsGet pd "source" with
  | error e1 => simp only [hg] at h; cases h; simp
  | ok src =>
    have hb : ∀ (h' : resolveShapeB pd = .error e),
        e = .typeError ∨ e = .invalidShape ∨ ∃ m, e = .sourceParseError m := by
      intro h'
      unfold resolveShapeB at h'
      cases hgt : jsGet pd "text" with
      | error e2 => simp only [hgt] at h'; cases h'; simp
      | ok txt =>
        simp only [hgt] at h'
        by_cases hc : (truthy txt && isObjectTy txt) = true
        · simp only [hc, if_true] at h'
          cases hh : jsGet pd "header" with
          | error e3 => simp only [hh] at h'; cases h'; simp
          | ok hdr => simp only [hh] at h'; cases h'
        · simp only [eq_false_of_ne_true hc, if_false] at h'
          cases h'; simp
    rw [hg] at h
    rcases src with _ | j
    · exact hb h
    · cases j with
      | str s =>
        by_cases hs : s = ""
        · subst hs; exact hb h
        · have hs' : (s != "") = true := by simp [hs]
          simp only [hs', if_true] at h
          cases hp : p s with
          | error m => simp only [hp] at h; cases h; simp
          | ok text =>
            simp only [hp] at h
            cases hh : jsGet pd "meta" with
            | error e3 => simp only [hh] at h; cases h; simp
            | ok hdr => simp only [hh] at h; cases h
      | null => exact hb h
      | bool b => exact hb h
      | num n => exact hb h
      | arr xs => exact hb h
      | obj fs => exact hb h

/-- A decodePayload failure is a Base64, decompression or JSON parse
error - never an InvalidFormat error. -/
theorem decodePayload_error_classify (env : ImportEnv) (cd : CloudProjectData)
    (e : ImportError) (h : decodePayload env cd = .error e) :
    (∃ m, e = .decodeError m) ∨ (∃ m, e = .decompressError m) ∨ ∃ m, e = .parseError m := by
  unfold decodePayload at h
  cases h1 : env.decode cd.projectData with
  | error m => simp only [h1] at h; cases h; exact Or.inl ⟨m, rfl⟩
  | ok bytes =>
    simp only [h1] at h
    cases h2 : env.lzmaDecompress bytes with
    | error m => simp only [h2] at h; cases h; exact Or.inr (Or.inl ⟨m, rfl⟩)
    | ok s =>
      simp only [h2] at h
      cases h3 : env.jsonParse s with
      | error m => simp only [h3] at h; cases h; exact Or.inr (Or.inr ⟨m, rfl⟩)
      | ok pd => simp only [h3] at h; exact Except.noConfusion h

/-- importInstall never yields either InvalidFormat error. -/
theorem importInstall_not_invalidFormat (env : ImportEnv) (headers : List String)
    (cd : CloudProjectData) (text : Json) (hdr : Option Json) (cfgVal : Option Json) :
    (importInstall env headers cd text hdr cfgVal).result ≠ .error .invalidShape ∧
    (importInstall env headers cd text hdr cfgVal).result ≠ .error .invalidMissingConfig := by
  unfold importInstall
  cases hp : env.jsonParse (jsToStringCoerce (cfgVal.getD .null)) with
  | error m => simp [hp]
  | ok config =>
    simp only [hp]
    cases hpe : jsGet config "preferredEditor" with
    | error e => simp [hpe]
    | ok pe =>
      simp only [hpe]
      cases hi : env.install
          { target := env.targetId
            targetVersion :=
              jsOr (jsGetOpt (jsGetOpt hdr "targetVersions") "target")
                (jsGetOpt hdr "targetVersion")
            editor :=
              jsOrVal (jsOr pe (jsGetOpt hdr "editor")) (.str BLOCKS_PROJECT_NAME)
            name := cd.projectName
            meta := jsOrVal (jsGetOpt hdr "meta") (.obj [])
            pubId := jsOrVal (jsGetOpt hdr "pubId") (.str "")
            pubCurrent := false } text with
      | error m => simp [hi]
      | ok u => simp [hi]

/-- importAfterShape never yields the unknown-format error; it yields
the missing-config error exactly when the configuration entry reads
back falsy, and then independently of the local headers, with no
installation submitted. -/
theorem importAfterShape_classify (env : ImportEnv) (headers headers' : List String)
    (cd : CloudProjectData) (text : Json) (hdr : Option Json) :
    ((importAfterShape env headers cd text hdr).result ≠ .error .invalidShape) ∧
    ((importAfterShape env headers cd text hdr).result = .error .invalidMissingConfig ↔
      ∃ cfg, jsGet text CONFIG_NAME = .ok cfg ∧ truthy cfg = false) ∧
    ((importAfterShape env headers cd text hdr).result = .error .invalidMissingConfig →
      importAfterShape env headers cd text hdr =
        ⟨.error .invalidMissingConfig, [], headers⟩ ∧
      (importAfterShape env headers' cd text hdr).result = .error .invalidMissingConfig) := by
  unfold importAfterShape
  cases hcf : jsGet text CONFIG_NAME with
  | error e => simp [hcf]
  | ok cfg =>
    simp only [hcf]
    by_cases hcv : truthy cfg = true
    · have hnc : (!truthy cfg) = false := by simp [hcv]
      simp only [hnc, Bool.false_eq_true, if_false]
      by_cases hm : headers.contains cd.projectName = true
      · simp only [hm, if_true]
        refine ⟨by simp, ?_, by simp⟩
        constructor
        · intro h; simp at h
        · rintro ⟨cfg', hc', hf⟩
          cases hc'
          rw [hcv] at hf
          exact absurd hf (by simp)
      · have hm' : headers.contains cd.projectName = false := eq_false_of_ne_true hm
        simp only [hm', Bool.false_eq_true, if_false]
        have hni := importInstall_not_invalidFormat env headers cd text hdr cfg
        refine ⟨hni.1, ?_, ?_⟩
        · constructor
          · intro h; exact absurd h hni.2
          · rintro ⟨cfg', hc', hf⟩
            cases hc'
            rw [hcv] at hf
            exact absurd hf (by simp)
        · intro h; exact absurd h hni.2
    · have hcv' : truthy cfg = false := eq_false_of_ne_true hcv
      have hnc : (!truthy cfg) = true := by simp [hcv']
      simp only [hnc, if_true]
      refine ⟨by simp, by simp [hcv'], ?_⟩
      intro h
      exact ⟨trivial, trivial⟩

/-- Pipeline-level InvalidFormat characterization: the unknown-format
error comes exactly from a shape-dispatch failure, the missing-config
error exactly from a falsy configuration entry after a successful
dispatch, and both are decided independently of the local headers and
submit no installation. -/
theorem importPipeline_invalidFormat (env : ImportEnv) (headers headers' : List String)
    (cd : CloudProjectData) :
    ((importPipeline env headers cd).result = .error .invalidShape ↔
      ∃ pd, decodePayload env cd = .ok pd ∧
        resolveShape env.jsonParse pd = .error .invalidShape) ∧
    ((importPipeline env headers cd).result = .error .invalidMissingConfig ↔
      ∃ pd text hdr cfg, decodePayload env cd = .ok pd ∧
        resolveShape env.jsonParse pd = .ok (text, hdr) ∧
        jsGet text CONFIG_NAME = .ok cfg ∧ truthy cfg = false) ∧
    (∀ e, (e = ImportError.invalidShape ∨ e = ImportError.invalidMissingConfig) →
      (importPipeline env headers cd).result = .error e →
      importPipeline env headers cd = ⟨.error e, [], headers⟩ ∧
      (importPipeline env headers' cd).result = .error e) := by
  unfold importPipeline
  cases hd : decodePayload env cd with
  | error e0 =>
    simp only [hd]
    refine ⟨?_, ?_, ?_⟩
    · rcases decodePayload_error_classify env cd e0 hd with ⟨m, rfl⟩ | ⟨m, rfl⟩ | ⟨m, rfl⟩ <;>
        simp
    · rcases decodePayload_error_classify env cd e0 hd with ⟨m, rfl⟩ | ⟨m, rfl⟩ | ⟨m, rfl⟩ <;>
        simp
    · rintro e (rfl | rfl) he <;>
      · rcases decodePayload_error_classify env cd e0 hd with ⟨m, rfl⟩ | ⟨m, rfl⟩ | ⟨m, rfl⟩ <;>
          simp at he
  | ok pd =>
    simp only [hd]
    cases hs : resolveShape env.jsonParse pd with
    | error e1 =>
      simp only [hs]
      refine ⟨?_, ?_, ?_⟩
      · simp [hs]
      · rcases resolveShape_error_classify _ _ _ hs with rfl | rfl | ⟨m, rfl⟩ <;> simp [hs]
      · rintro e (rfl | rfl) he
        · have h1 : e1 = ImportError.invalidShape := by simpa using he
          subst h1
          exact ⟨rfl, rfl⟩
        · have h1 : e1 = ImportError.invalidMissingConfig := by simpa using he
          subst h1
          rcases resolveShape_error_classify _ _ _ hs with h2 | h2 | ⟨m, h2⟩ <;> simp at h2
    | ok th =>
      obtain ⟨text, hdr⟩ := th
      simp only [hs]
      have hcl := importAfterShape_classify env headers headers' cd text hdr
      refine ⟨?_, ?_, ?_⟩
      · constructor
        · intro h; exact absurd h hcl.1
        · rintro ⟨pd', hd', hs'⟩
          cases hd'
          rw [hs] at hs'
          exact absurd hs' (by simp)
      · rw [hcl.2.1]
        constructor
        · rintro ⟨cfg, hc, hf⟩
          exact ⟨pd, text, hdr, cfg, rfl, hs, hc, hf⟩
        · rintro ⟨pd', text', hdr', cfg', hpd, hs', hc', hf'⟩
          cases hpd
          rw [hs] at hs'
          have h2 : text = text' ∧ hdr = hdr' := by simpa using hs'
          obtain ⟨rfl, rfl⟩ := h2.imp Eq.symm Eq.symm
          exact ⟨cfg', hc', hf'⟩
      · rintro e (rfl | rfl) he
        · exact absurd he hcl.1
        · exact hcl.2.2 he

/-- The catch clause of importCloudProject changes no observable of
the attempt other than adding the notification. -/
theorem importCloudProject_eq_pipeline (env : ImportEnv) (headers : List String)
    (cd : CloudProjectData) :
    (importCloudProject env headers cd).result = (importPipeline env headers cd).result ∧
    (importCloudProject env headers cd).installs = (importPipeline env headers cd).installs ∧
    (importCloudProject env headers cd).newHeaders = (importPipeline env headers cd).newHeaders := by
  unfold importCloudProject
  cases hr : (importPipeline env headers cd).result <;> simp [hr]

/-- C3 (amended): importCloudProject fails with InvalidFormat in
exactly two data-shape cases - the payload has no truthy string source
field and no truthy object text field, or the shape dispatch succeeds
but the file map entry under the reserved configuration name is absent
or falsy - and in both cases it fails before the collision check and
before any installation request. -/
theorem importCloudProject_invalidFormat_exactly (env : ImportEnv)
    (headers headers' : List String) (cd : CloudProjectData) :
    ((importCloudProject env headers cd).result = .error .invalidShape ↔
      ∃ pd src txt, decodePayload env cd = .ok pd ∧
        jsGet pd "source" = .ok src ∧ (truthy src && isStringTy src) = false ∧
        jsGet pd "text" = .ok txt ∧ (truthy txt && isObjectTy txt) = false) ∧
    ((importCloudProject env headers cd).result = .error .invalidMissingConfig ↔
      ∃ pd text hdr cfg, decodePayload env cd = .ok pd ∧
        resolveShape env.jsonParse pd = .ok (text, hdr) ∧
        jsGet text CONFIG_NAME = .ok cfg ∧ truthy cfg = false) ∧
    (∀ e, (e = ImportError.invalidShape ∨ e = ImportError.invalidMissingConfig) →
      (importCloudProject env headers cd).result = .error e →
      (importCloudProject env headers cd).installs = [] ∧
      (importCloudProject env headers cd).newHeaders = headers ∧
      (importCloudProject env headers' cd).result = .error e) := by
  have hp := importPipeline_invalidFormat env headers headers' cd
  have he1 := importCloudProject_eq_pipeline env headers cd
  have he2 := importCloudProject_eq_pipeline env headers' cd
  refine ⟨?_, ?_, ?_⟩
  · rw [he1.1, hp.1]
    constructor
    · rintro ⟨pd, hd, hs⟩
      rw [resolveShape_invalidShape_iff] at hs
      obtain ⟨src, txt, h1, h2, h3, h4⟩ := hs
      exact ⟨pd, src, txt, hd, h1, h2, h3, h4⟩
    · rintro ⟨pd, src, txt, hd, h1, h2, h3, h4⟩
      exact ⟨pd, hd, (resolveShape_invalidShape_iff _ _).mpr ⟨src, txt, h1, h2, h3, h4⟩⟩
  · rw [he1.1, hp.2.1]
  · intro e hee he
    rw [he1.1] at he
    obtain ⟨hq, hw⟩ := hp.2.2 e hee he
    refine ⟨?_, ?_, ?_⟩
    · rw [he1.2.1, hq]
    · rw [he1.2.2, hq]
    · rw [he2.1, hw]

/-- C3 counterexample: a payload whose source field holds the empty
string - a string-valued source field, so neither of the two claimed
cases - still fails with the unknown-format InvalidFormat error. -/
theorem importCloudProject_invalidFormat_counterexample :
    (importCloudProject (mkImportEnv emptySourcePayload) [] ⟨"P", "b64", none⟩).result =
      .error .invalidShape ∧
    lookupField emptySourcePayload "source" = some (.str "") :=
  ⟨rfl, rfl⟩

/-- C3 witness: the characterization applied at the concrete
empty-source payload. -/
theorem importCloudProject_invalidFormat_exactly_witness :
    (importCloudProject (mkImportEnv emptySourcePayload) [] ⟨"P", "b64", none⟩).result =
      .error .invalidShape :=
  (importCloudProject_invalidFormat_exactly (mkImportEnv emptySourcePayload) [] []
      ⟨"P", "b64", none⟩).1.mpr
    ⟨emptySourcePayload, some (.str ""), none, rfl, rfl, rfl, rfl, rfl⟩

/-- jsGet on a non-null value is plain field lookup. -/
theorem jsGet_of_ne_null (j : Json) (k : String) (h : j ≠ .null) :
    jsGet j k = .ok (lookupField j k) := by
  cases j <;> first | exact absurd rfl h | rfl

/-- dbCall on an unsuccessful status: a parse failure of the error
body propagates, a null body raises a TypeError, and otherwise the
thrown message is the coerced error field when truthy, else the
default message. -/
theorem dbCall_error_status (r : HttpResponse) (d : String) (hok : r.ok = false) :
    (∀ m, r.bodyParse = .error m → dbCall (.ok r) d = .error (.bodyParseError m)) ∧
    (r.bodyParse = .ok .null → dbCall (.ok r) d = .error .typeError) ∧
    (∀ j, r.bodyParse = .ok j → j ≠ .null →
      dbCall (.ok r) d =
        .error (.apiError (jsToStringCoerce (jsOrVal (lookupField j "error") (.str d))))) := by
  refine ⟨?_, ?_, ?_⟩
  · intro m h
    simp [dbCall, hok, h]
  · intro h
    simp [dbCall, hok, h, jsGet]
  · intro j h hj
    simp [dbCall, hok, h, jsGet_of_ne_null j "error" hj]

/-- C4 (amended): every transport operation, on an unsuccessful HTTP
status, fails with the server error-body message when the body parses
to a non-null JSON value with a truthy error field and with the
operation default message when that field is absent or falsy; when
the error body cannot be parsed as JSON the parse failure propagates
instead of the default message, and a null body raises a TypeError. -/
theorem dbOps_error_status (r : HttpResponse) (hok : r.ok = false) :
    (∀ m, r.bodyParse = .error m →
      saveProject (.ok r) = .error (.bodyParseError m) ∧
      getUserProjects (.ok r) = .error (.bodyParseError m) ∧
      getProject (.ok r) = .error (.bodyParseError m) ∧
      updateProject (.ok r) = .error (.bodyParseError m) ∧
      deleteProject (.ok r) = .error (.bodyParseError m)) ∧
    (r.bodyParse = .ok .null →
      saveProject (.ok r) = .error .typeError ∧
      getUserProjects (.ok r) = .error .typeError ∧
      getProject (.ok r) = .error .typeError ∧
      updateProject (.ok r) = .error .typeError ∧
      deleteProject (.ok r) = .error .typeError) ∧
    (∀ j, r.bodyParse = .ok j → j ≠ .null →
      saveProject (.ok r) = .error (.apiError
        (jsToStringCoerce (jsOrVal (lookupField j "error") (.str "Failed to save project")))) ∧
      getUserProjects (.ok r) = .error (.apiError
        (jsToStringCoerce (jsOrVal (lookupField j "error") (.str "Failed to fetch projects")))) ∧
      getProject (.ok r) = .error (.apiError
        (jsToStringCoerce (jsOrVal (lookupField j "error") (.str "Failed to fetch project")))) ∧
      updateProject (.ok r) = .error (.apiError
        (jsToStringCoerce (jsOrVal (lookupField j "error") (.str "Failed to update project")))) ∧
      deleteProject (.ok r) = .error (.apiError
        (jsToStringCoerce (jsOrVal (lookupField j "error") (.str "Failed to delete project"))))) := by
  have hsv := dbCall_error_status r "Failed to save project" hok
  have hlp := dbCall_error_status r "Failed to fetch projects" hok
  have hgp := dbCall_error_status r "Failed to fetch project" hok
  have hup := dbCall_error_status r "Failed to update project" hok
  have hdp := dbCall_error_status r "Failed to delete project" hok
  refine ⟨?_, ?_, ?_⟩
  · intro m hm
    refine ⟨hsv.1 m hm, hlp.1 m hm, ?_, hup.1 m hm, hdp.1 m hm⟩
    unfold getProject
    rw [hgp.1 m hm]
    rfl
  · intro hn
    refine ⟨hsv.2.1 hn, hlp.2.1 hn, ?_, hup.2.1 hn, hdp.2.1 hn⟩
    unfold getProject
    rw [hgp.2.1 hn]
    rfl
  · intro j hj hjn
    refine ⟨hsv.2.2 j hj hjn, hlp.2.2 j hj hjn, ?_, hup.2.2 j hj hjn, hdp.2.2 j hj hjn⟩
    unfold getProject
    rw [hgp.2.2 j hj hjn]
    rfl

/-- C4 counterexample: on an unsuccessful status whose error body is
not valid JSON, saveProject fails with the body parse error, not with
its default failure message. -/
theorem saveProject_unparseable_error_body :
    saveProject (.ok ⟨false, .error "Unexpected token"⟩) =
      .error (.bodyParseError "Unexpected token") ∧
    saveProject (.ok ⟨false, .error "Unexpected token"⟩) ≠
      .error (.apiError "Failed to save project") := by
  refine ⟨rfl, ?_⟩
  intro h
  simp [saveProject, dbCall] at h

/-- C4 witness: a parsed error body with a truthy error field gives
the server message on two of the operations. -/
theorem dbOps_error_status_witness :
    saveProject (.ok ⟨false, .ok (.obj [("error", .str "nope")])⟩) =
      .error (.apiError "nope") ∧
    updateProject (.ok ⟨false, .ok (.obj [("error", .str "nope")])⟩) =
      .error (.apiError "nope") := by
  have h := (dbOps_error_status ⟨false, .ok (.obj [("error", .str "nope")])⟩ rfl).2.2
    (.obj [("error", .str "nope")]) rfl (by simp)
  exact ⟨h.1, h.2.2.2.1⟩

end MakecodeCloud
